import Mathlib

/-!
# Verification of `pmatic/xml_api.py` (XML-RPC client core)

Shallow embedding of the pmatic low-level XML API client
(`src/pmatic/xml_api.py`).  Strings are modelled as `List Char` (`Str`),
Python exceptions as an inductive `PyErr`, the `xmlrpclib.ServerProxy`
transport as a record of externally determined outcomes, and the mutable
`XMLAPI` object as a state record threaded explicitly.  All API methods of
the source file are translated function by function; the lock is not
modelled (every modelled operation runs while holding the single RLock, so
the sequential semantics is exactly the per-operation semantics).
-/

/-- Python strings, as lists of characters. -/
abbrev Str := List Char

/-! ## Python `str.replace` instances

`xml_api.py` uses four `str.replace(old, new)` calls, each with a concrete
pattern.  Python's `str.replace` substitutes the leftmost, non-overlapping
occurrences, scanning left to right and never rescanning replacement text.
Each call is embedded as its own structurally recursive function. -/

/-- `method_name_api.replace(".", "_")` from `_to_internal_name`. -/
def replaceDot : Str → Str
  | '.' :: rest => '_' :: replaceDot rest
  | c :: rest => c :: replaceDot rest
  | [] => []

/-- `.replace("bid_co_s", "bidcos")` from `_to_internal_name`. -/
def replaceBidcos : Str → Str
  | 'b' :: 'i' :: 'd' :: '_' :: 'c' :: 'o' :: '_' :: 's' :: rest =>
      'b' :: 'i' :: 'd' :: 'c' :: 'o' :: 's' :: replaceBidcos rest
  | c :: rest => c :: replaceBidcos rest
  | [] => []

/-- `.replace("re_ga", "rega")` from `_to_internal_name`. -/
def replaceRega : Str → Str
  | 'r' :: 'e' :: '_' :: 'g' :: 'a' :: rest =>
      'r' :: 'e' :: 'g' :: 'a' :: replaceRega rest
  | c :: rest => c :: replaceRega rest
  | [] => []

/-- `.replace("__", "_")` from `_to_internal_name`: one left-to-right pass
over the string, each non-overlapping occurrence of `__` replaced by `_`
(scanning resumes after the replaced occurrence). -/
def replaceDU : Str → Str
  | c :: d :: rest =>
    if c == '_' && d == '_' then '_' :: replaceDU rest
    else c :: replaceDU (d :: rest)
  | l => l

/-- The string contains two consecutive underscores. -/
def hasDD : Str → Bool
  | c :: d :: rest => (c == '_' && d == '_') || hasDD (d :: rest)
  | _ => false

/-- The string contains three consecutive underscores. -/
def hasTD : Str → Bool
  | c :: d :: e :: rest => (c == '_' && d == '_' && e == '_') || hasTD (d :: e :: rest)
  | _ => false

/-! ## `pmatic.utils.decamel` (modelled from the spec)

`utils.decamel` is code of this repository that is not under `src/` (only
its caller `_to_internal_name` is).  It is modelled from the spec: "Convert
the result from camel-case segments to lowercase, underscore-separated
segments (insert `_` before each uppercase letter run boundary, then
lowercase everything)", "treat each maximal run of capitals followed by a
lowercase run as one segment boundary, consistent with standard
camel-to-snake conversion", with the spec's stipulated values
`BidCoS ↦ bid_co_s` and `ReGa ↦ re_ga`.  The standard conversion is the
two-substitution pipeline: first `(.)([A-Z][a-z]+) ↦ \1_\2`, then
`([a-z0-9])([A-Z]) ↦ \1_\2`, then lowercase the result. -/

/-- Modelled from the spec: first substitution pass of the standard
camel-to-snake conversion, `(.)([A-Z][a-z]+) ↦ \1_\2` — an underscore is
inserted before an uppercase letter that is followed by a lowercase run and
preceded by some character; the match greedily consumes the whole lowercase
run and scanning resumes after it. -/
def camelPass1 : Str → Str
  | c :: d :: e :: rest =>
    if d.isUpper && e.isLower then
      c :: '_' :: d :: ((e :: rest).takeWhile Char.isLower
        ++ camelPass1 ((e :: rest).dropWhile Char.isLower))
    else
      c :: camelPass1 (d :: e :: rest)
  | l => l
termination_by l => l.length
decreasing_by
  · have h := (List.dropWhile_sublist (l := e :: rest) Char.isLower).length_le
    simp at h ⊢
    omega
  · simp

/-- Modelled from the spec: second substitution pass of the standard
camel-to-snake conversion, `([a-z0-9])([A-Z]) ↦ \1_\2` — an underscore is
inserted between a lowercase letter or digit and an uppercase letter. -/
def camelPass2 : Str → Str
  | c :: d :: rest =>
    if (c.isLower || c.isDigit) && d.isUpper then
      c :: '_' :: d :: camelPass2 rest
    else
      c :: camelPass2 (d :: rest)
  | l => l

/-- Modelled from the spec: `pmatic.utils.decamel` — standard camel-to-snake
conversion (two substitution passes, then lowercase everything). -/
def decamel (s : Str) : Str :=
  (camelPass2 (camelPass1 s)).map Char.toLower

/-- `_to_internal_name` of `xml_api.py`: translates a raw API method name to
the pmatic notation — `.` replaced by `_`, decamelized, `bid_co_s ↦ bidcos`,
`re_ga ↦ rega`, `__ ↦ _`. -/
def to_internal_name (method_name_api : Str) : Str :=
  replaceDU (replaceRega (replaceBidcos (decamel (replaceDot method_name_api))))

/-- The intermediate string of `_to_internal_name` just before its final
`.replace("__", "_")` pass. -/
def preCollapse (method_name_api : Str) : Str :=
  replaceRega (replaceBidcos (decamel (replaceDot method_name_api)))

/-! ## Address normalization -/

/-- `_set_address` of `xml_api.py` (the normalization part; the
`utils.is_string` guard is enforced by the type `Str` here): add the
optional protocol prefix and the `:2001` port. -/
def set_address (address : Str) : Str :=
  if !(List.isPrefixOf ("https://".data) address)
      && !(List.isPrefixOf ("http://".data) address) then
    ("http://".data) ++ address ++ (":2001".data)
  else
    address ++ (":2001".data)

/-! ## Exceptions, values, transport

The client raises only its own exception classes `PMException` and
`PMConnectionError` (from `pmatic.exceptions`); the `xmlrpclib` transport can
raise `ProtocolError` (an HTTP-level transport fault), `Fault` (a remote
fault response), or any other Python exception (e.g. a socket error while
the connection is opened or used).  Each carries its rendered `%s` text. -/

/-- A Python exception as observed by this client: the client's own two
classes, the two `xmlrpclib` classes its `try` blocks catch, and a catch-all
for every other exception a collaborator may raise. -/
inductive PyErr where
  | pmException (msg : Str)
  | pmConnectionError (msg : Str)
  | xmlProtocolError (detail : Str)
  | xmlFault (detail : Str)
  | otherExc (detail : Str)
deriving DecidableEq, Repr

/-- An XML-RPC value (raw result or positional argument); the client treats
these opaquely, so a minimal inductive suffices. -/
inductive XValue where
  | s (v : Str)
  | i (v : Int)
  | b (v : Bool)
  | arr (v : List XValue)

/-- The external `xmlrpclib.ServerProxy` collaborator, as the outcomes the
environment chooses for its operations: constructing/opening the proxy,
`system.listMethods()`, and invoking a remote method by its raw name with
positional arguments.  An `Except.error` outcome is the exception the
operation raises. -/
structure Transport where
  connectResult : Except PyErr Unit
  listMethodsResult : Except PyErr (List Str)
  callResult : Str → List XValue → Except PyErr XValue

/-- An entry of `self._methods`: the dict literal built in `_init_methods`
(`NAME`, `INFO`, `ARGUMENTS`, `INT_ARGUMENTS`). -/
structure Method where
  NAME : Str
  INFO : Str
  ARGUMENTS : List Str
  INT_ARGUMENTS : List Str
deriving DecidableEq, Repr

/-- The mutable state of an `XMLAPI` instance: `self._methods` (a Python
dict, i.e. an insertion-ordered association list with unique keys),
`self._fail_exc`, `self._initialized`, `self._address`, and whether
`self.proxy` has been set by `_connect`. -/
structure XMLAPI where
  methods : List (Str × Method)
  fail_exc : Option PyErr
  isInit : Bool
  address : Str
  connected : Bool
deriving Repr

/-- `XMLAPI.__init__` (with a string address): empty catalog, no failure,
not initialized, no proxy, normalized address via `_set_address`. -/
def XMLAPI.make (address : Str) : XMLAPI :=
  { methods := [], fail_exc := none, isInit := false,
    address := set_address address, connected := false }

/-- Python `dict.setdefault(k, v)`: keep an existing binding of `k`,
otherwise append `(k, v)` (dicts preserve insertion order). -/
def setdefault (d : List (Str × Method)) (k : Str) (v : Method) :
    List (Str × Method) :=
  match d.lookup k with
  | some _ => d
  | none => d ++ [(k, v)]

/-- The descriptor `_init_methods` inserts for the raw remote name `m`:
`{"NAME": m, "INFO": "", "ARGUMENTS": [], "INT_ARGUMENTS": []}`. -/
def mkMethod (m : Str) : Method :=
  { NAME := m, INFO := [], ARGUMENTS := [], INT_ARGUMENTS := [] }

/-- The catalog `_init_methods` builds from the introspection listing:
`setdefault` of each name's descriptor, keyed by its translated name, in
listing order, into the cleared dict. -/
def buildMethods (names : List Str) : List (Str × Method) :=
  names.foldl (fun d m => setdefault d (to_internal_name m) (mkMethod m)) []

/-- `_connect`: `self.proxy = ServerProxy(self._address)`; an exception from
the transport propagates, leaving the state unchanged. -/
def connect (api : XMLAPI) (t : Transport) : XMLAPI × Except PyErr Unit :=
  match t.connectResult with
  | .ok _ => ({ api with connected := true }, .ok ())
  | .error e => (api, .error e)

/-- `_init_methods`: `self._methods.clear()`, then
`self.proxy.system.listMethods()` (an exception propagates, the catalog
stays cleared), then one `setdefault` per listed name. -/
def init_methods (api : XMLAPI) (t : Transport) : XMLAPI × Except PyErr Unit :=
  let api1 := { api with methods := [] }
  match t.listMethodsResult with
  | .error e => (api1, .error e)
  | .ok names => ({ api1 with methods := buildMethods names }, .ok ())

/-- `_initialize_api`: `self._connect()` then `self._init_methods()`. -/
def initApi (api : XMLAPI) (t : Transport) : XMLAPI × Except PyErr Unit :=
  match connect api t with
  | (api1, .error e) => (api1, .error e)
  | (api1, .ok _) => init_methods api1 t

/-- `_initialize`: return if already initialized; else clear `_fail_exc`,
run `_initialize_api`; on success set `_initialized`; on any exception set
`_initialized = False`, record the exception in `_fail_exc` and re-raise. -/
def doInit (api : XMLAPI) (t : Transport) : XMLAPI × Except PyErr Unit :=
  if api.isInit then (api, .ok ())
  else
    let api1 := { api with fail_exc := none }
    match initApi api1 t with
    | (api2, .ok _) => ({ api2 with isInit := true }, .ok ())
    | (api2, .error e) => ({ api2 with isInit := false, fail_exc := some e }, .error e)

/-- `_get_method`: the catalog entry of an internal name, or the
`PMException` whose message names the invalid method. -/
def get_method (api : XMLAPI) (method_name_int : Str) : Except PyErr Method :=
  match api.methods.lookup method_name_int with
  | some m => .ok m
  | none => .error (.pmException (("Method \"".data) ++ method_name_int
      ++ ("\" is not a valid method.".data)))

/-- `_do_call`: look the method up, invoke the proxy under the raw `NAME`;
an `xmlrpclib.ProtocolError` is re-raised as
`PMConnectionError("Unable to open \"<address>\": <err>")`, a `Fault` as
`PMException("Server error calling \"<name>\": <fault>")`; any other
exception is not caught and propagates unchanged. -/
def do_call (api : XMLAPI) (t : Transport) (method_name_int : Str)
    (args : List XValue) : Except PyErr XValue :=
  match get_method api method_name_int with
  | .error e => .error e
  | .ok method =>
    match t.callResult method.NAME args with
    | .ok result => .ok result
    | .error (.xmlProtocolError perr) =>
        .error (.pmConnectionError (("Unable to open \"".data) ++ api.address
          ++ ("\": ".data) ++ perr))
    | .error (.xmlFault fault) =>
        .error (.pmException (("Server error calling \"".data) ++ method_name_int
          ++ ("\": ".data) ++ fault))
    | .error e => .error e

/-- `__getattr__` followed by calling the returned lambda: `_initialize()`
under the lock (an exception propagates to the attribute access), then
`_call`, i.e. `_do_call` under the lock. -/
def invoke (api : XMLAPI) (t : Transport) (method_name_int : Str)
    (args : List XValue) : XMLAPI × Except PyErr XValue :=
  match doInit api t with
  | (api1, .error e) => (api1, .error e)
  | (api1, .ok _) => (api1, do_call api1 t method_name_int args)

/-! ## `print_methods` rendering -/

/-- Python `", ".join(args)`. -/
def joinArgs : List Str → Str
  | [] => []
  | [a] => a
  | a :: rest => a ++ (", ".data) ++ joinArgs rest

/-- Python `"%-60s %s\n" % (col1, col2)`: left-justify `col1` to width 60,
a space, `col2`, a newline. -/
def line_format (col1 col2 : Str) : Str :=
  (col1 ++ List.replicate (60 - col1.length) ' ') ++ ' ' :: (col2 ++ ['\n'])

/-- Python `<` on strings: lexicographic comparison by code point (as used
by `sorted(self._methods.items())`, whose unique keys decide the order). -/
def strLe : Str → Str → Bool
  | [], _ => true
  | _ :: _, [] => false
  | a :: as, b :: bs => if a = b then strLe as bs else decide (a < b)

/-- `print_methods`: `_initialize()` under the lock (an exception
propagates), then the header line and one formatted line per catalog entry,
sorted by internal name: `"API.<name>(<int_arguments joined>)"` and the
`INFO` column. -/
def print_methods_out (api : XMLAPI) (t : Transport) :
    XMLAPI × Except PyErr Str :=
  match doInit api t with
  | (api1, .error e) => (api1, .error e)
  | (api1, .ok _) =>
    (api1, .ok (line_format ("Method".data) ("Description".data)
      ++ ((api1.methods.mergeSort (fun x y => strLe x.1 y.1)).map
        (fun km => line_format (("API.".data) ++ km.1 ++ ("(".data)
          ++ joinArgs km.2.INT_ARGUMENTS ++ (")".data)) km.2.INFO)).flatten))

/-! ## Error taxonomy -/

/-- The error is one of the client's own exception classes (`PMException` —
which the source uses for its configuration, protocol and method-not-found
errors — or `PMConnectionError`), rather than a raw transport exception. -/
def isClientError : PyErr → Bool
  | .pmException _ => true
  | .pmConnectionError _ => true
  | _ => false

/-- Every exception this transport raises from a remote call is of one of
the two kinds `_do_call` catches: an `xmlrpclib.ProtocolError` or a
`Fault`. -/
def onlyCaughtKinds (t : Transport) : Prop :=
  ∀ nm args e, t.callResult nm args = .error e →
    (∃ d, e = .xmlProtocolError d) ∨ (∃ d, e = .xmlFault d)

/-! ## Concrete fixtures used by the witnesses -/

/-- A transport whose introspection lists two distinct names with the same
translated local identifier. -/
def tCollide : Transport :=
  { connectResult := .ok (),
    listMethodsResult := .ok [("a.b".data), ("a_b".data)],
    callResult := fun _ _ => .ok (.b true) }

/-- A transport that fails while the connection is opened. -/
def tNoConnect : Transport :=
  { connectResult := .error (.otherExc ("connection refused".data)),
    listMethodsResult := .ok [],
    callResult := fun _ _ => .ok (.b true) }

/-- A transport that connects but whose introspection call fails. -/
def tBadListing : Transport :=
  { connectResult := .ok (),
    listMethodsResult := .error (.xmlFault ("oops".data)),
    callResult := fun _ _ => .ok (.b true) }

/-- A healthy transport listing one remote method. -/
def tListOne : Transport :=
  { connectResult := .ok (),
    listMethodsResult := .ok [("CCU.getSerial".data)],
    callResult := fun _ _ => .ok (.b true) }

/-- A transport whose remote calls raise `xmlrpclib.ProtocolError("407")`. -/
def tProtoErr : Transport :=
  { connectResult := .ok (),
    listMethodsResult := .ok [],
    callResult := fun _ _ => .error (.xmlProtocolError ("407".data)) }

/-- A transport whose remote calls raise `Fault("bad params")`. -/
def tFaulty : Transport :=
  { connectResult := .ok (),
    listMethodsResult := .ok [],
    callResult := fun _ _ => .error (.xmlFault ("bad params".data)) }

/-- A transport whose remote calls raise a low-level socket error — an
exception that is neither of the two kinds `_do_call` catches. -/
def tRaw : Transport :=
  { connectResult := .ok (),
    listMethodsResult := .ok [],
    callResult := fun _ _ => .error (.otherExc ("boom".data)) }

/-- An already-initialized client whose catalog holds `ccu_get_serial`. -/
def apiReady : XMLAPI :=
  { methods := [(("ccu_get_serial".data), mkMethod ("CCU.getSerial".data))],
    fail_exc := none, isInit := true,
    address := set_address ("ccu".data), connected := true }

/-- A not-yet-initialized client that still holds a descriptor, to observe
that a failing re-initialization discards it. -/
def apiStale : XMLAPI :=
  { methods := [(("x".data), mkMethod ("x".data))],
    fail_exc := none, isInit := false,
    address := set_address ("ccu".data), connected := true }

/-! ## Helper lemmas -/

/-- One left-to-right collapse pass keeps the first character in place. -/
theorem replaceDU_cons (c : Char) (cs : Str) : ∃ t, replaceDU (c :: cs) = c :: t := by
  cases cs with
  | nil => exact ⟨[], rfl⟩
  | cons d rest =>
    by_cases h : (c == '_' && d == '_') = true
    · have hc : c = '_' := by simp at h; exact h.1
      have hd : d = '_' := by simp at h; exact h.2
      subst hc hd
      exact ⟨replaceDU rest, by simp [replaceDU]⟩
    · exact ⟨replaceDU (d :: rest), by simp [replaceDU, h]⟩

/-- A string without a triple underscore has none in any of its tails. -/
theorem hasTD_tail (c : Char) (l : Str) (h : hasTD (c :: l) = false) : hasTD l = false := by
  match l with
  | [] => simp [hasTD]
  | [x] => simp [hasTD]
  | x :: y :: rs =>
    rw [hasTD] at h
    simp at h
    exact h.2

/-- One collapse pass over a string without a triple underscore leaves no
doubled underscore. -/
theorem replaceDU_no_dd : ∀ l : Str, hasTD l = false → hasDD (replaceDU l) = false := by
  intro l
  induction l using replaceDU.induct with
  | case1 c d rest h ih =>
    intro htd
    have hc : c = '_' := by simp at h; exact h.1
    have hd : d = '_' := by simp at h; exact h.2
    subst hc hd
    rw [replaceDU, if_pos h]
    match rest with
    | [] => simp [hasDD, replaceDU]
    | r :: rs =>
      have hr : (r == '_') = false := by
        cases hrb : (r == '_') with
        | false => rfl
        | true =>
          have hre : r = '_' := by simpa using hrb
          subst hre
          simp [hasTD] at htd
      obtain ⟨t, ht⟩ := replaceDU_cons r rs
      rw [ht, hasDD]
      have h3 : hasTD (r :: rs) = false := hasTD_tail _ _ (hasTD_tail _ _ htd)
      have h4 := ih h3
      rw [ht] at h4
      simp [hr, h4]
  | case2 c d rest h ih =>
    intro htd
    rw [replaceDU, if_neg h]
    obtain ⟨t, ht⟩ := replaceDU_cons d rest
    rw [ht, hasDD]
    have h2 : hasTD (d :: rest) = false := hasTD_tail _ _ htd
    have h4 := ih h2
    rw [ht] at h4
    simp only [Bool.or_eq_false_iff]
    constructor
    · simpa using h
    · exact h4
  | case3 l h =>
    intro _
    cases l with
    | nil => simp [replaceDU, hasDD]
    | cons c cs =>
      cases cs with
      | nil => simp [replaceDU, hasDD]
      | cons d rest => exact absurd rfl (h c d rest)

/-- What a `setdefault` step contributes to a later lookup: an existing
binding always wins; a fresh key is appended. -/
theorem lookup_setdefault (d : List (Str × Method)) (k' k : Str) (v : Method) :
    (setdefault d k' v).lookup k
      = (d.lookup k).or (if k' = k then some v else none) := by
  unfold setdefault
  cases h : d.lookup k' with
  | some v0 =>
    by_cases hk : k' = k
    · subst hk; simp [h]
    · simp [hk]
  | none =>
    rw [List.lookup_append]
    by_cases hk : k' = k
    · subst hk; simp [List.lookup]
    · have hbe : (k == k') = false := beq_eq_false_iff_ne.mpr (Ne.symm hk)
      simp [List.lookup, hk, hbe]

/-- Looking a key up in the catalog fold: the accumulator's binding wins,
else the first listed name whose translation is the key provides it. -/
theorem lookup_foldl_setdefault (names : List Str) :
    ∀ (acc : List (Str × Method)) (k : Str),
      (names.foldl (fun d m => setdefault d (to_internal_name m) (mkMethod m)) acc).lookup k
        = (acc.lookup k).or
            ((names.find? fun m => to_internal_name m == k).map mkMethod) := by
  induction names with
  | nil => intro acc k; simp
  | cons m ms ih =>
    intro acc k
    rw [List.foldl_cons, ih, lookup_setdefault]
    by_cases hk : to_internal_name m = k
    · simp [List.find?, hk, Option.or_assoc]
    · have hbe : (to_internal_name m == k) = false := by simp [hk]
      simp [List.find?, hbe, hk]

/-- Catalog lookup is exactly "descriptor of the first listed remote name
translating to the key". -/
theorem lookup_buildMethods (names : List Str) (k : Str) :
    (buildMethods names).lookup k
      = ((names.find? fun m => to_internal_name m == k).map mkMethod) := by
  rw [buildMethods, lookup_foldl_setdefault]
  simp

/-- `find?` succeeds when the predicate holds somewhere, and its result sits
at or before that position. -/
theorem find?_mem_take {α : Type} (p : α → Bool) (l : List α) :
    ∀ (i : Nat) (hi : i < l.length), p (l.get ⟨i, hi⟩) = true →
      ∃ m, l.find? p = some m ∧ m ∈ l.take (i + 1) := by
  induction l with
  | nil => intro i hi; simp at hi
  | cons x xs ih =>
    intro i hi hp
    cases hx : p x with
    | true => exact ⟨x, by simp [List.find?, hx], by simp⟩
    | false =>
      cases i with
      | zero => simp at hp; rw [hx] at hp; exact absurd hp (by simp)
      | succ n =>
        obtain ⟨m, hm1, hm2⟩ := ih n (by simpa using hi) (by simpa using hp)
        exact ⟨m, by simp [List.find?, hx, hm1], by simp [hm2]⟩

/-- Every entry the catalog fold produces comes from the accumulator or is
the translated-key/descriptor pair of some listed name. -/
theorem mem_foldl_setdefault (names : List Str) :
    ∀ (acc : List (Str × Method)) (p : Str × Method),
      p ∈ names.foldl (fun d m => setdefault d (to_internal_name m) (mkMethod m)) acc →
      p ∈ acc ∨ ∃ nm ∈ names, p = (to_internal_name nm, mkMethod nm) := by
  induction names with
  | nil => intro acc p h; simp at h; exact Or.inl h
  | cons m ms ih =>
    intro acc p h
    rw [List.foldl_cons] at h
    rcases ih _ p h with h1 | ⟨nm, hnm, hpe⟩
    · unfold setdefault at h1
      cases hl : acc.lookup (to_internal_name m) with
      | some v0 => rw [hl] at h1; exact Or.inl h1
      | none =>
        rw [hl] at h1
        rcases List.mem_append.mp h1 with h2 | h2
        · exact Or.inl h2
        · simp at h2
          exact Or.inr ⟨m, by simp, by simp [h2]⟩
    · exact Or.inr ⟨nm, by simp [hnm], hpe⟩

/-- Every catalog entry is the translated-key/descriptor pair of a listed
name. -/
theorem mem_buildMethods (names : List Str) (p : Str × Method)
    (h : p ∈ buildMethods names) :
    ∃ nm ∈ names, p = (to_internal_name nm, mkMethod nm) := by
  rcases mem_foldl_setdefault names [] p h with h1 | h2
  · simp at h1
  · exact h2

/-! ## Claims -/

/-- C1: Address normalization at construction — for every string address,
if it starts with `http://` or `https://`, the stored address is the
supplied string with `:2001` appended; otherwise it is
`http://<address>:2001`.  In particular
`normalize("192.168.1.26") = "http://192.168.1.26:2001"` and
`normalize("https://ccu.local") = "https://ccu.local:2001"`. -/
theorem set_address_normalization :
    (∀ a : Str,
        (List.isPrefixOf ("http://".data) a || List.isPrefixOf ("https://".data) a) = true →
        set_address a = a ++ (":2001".data)) ∧
    (∀ a : Str,
        (List.isPrefixOf ("http://".data) a || List.isPrefixOf ("https://".data) a) = false →
        set_address a = ("http://".data) ++ a ++ (":2001".data)) ∧
    set_address ("192.168.1.26".data) = ("http://192.168.1.26:2001".data) ∧
    set_address ("https://ccu.local".data) = ("https://ccu.local:2001".data) := by
  refine ⟨?_, ?_, by decide, by decide⟩ <;>
    · intro a h
      cases hp : List.isPrefixOf ("http://".data) a <;>
        cases hps : List.isPrefixOf ("https://".data) a <;>
          simp_all [set_address]

/-- C2: the name translator maps `Interface.activateLinkParamset` to
`interface_activate_link_paramset` and `CCU.getSerial` to
`ccu_get_serial` (dots to underscores, decamelization, the bidcos/rega
corrections, and the doubled-underscore collapse). -/
theorem to_internal_name_examples :
    to_internal_name ("Interface.activateLinkParamset".data)
      = ("interface_activate_link_paramset".data) ∧
    to_internal_name ("CCU.getSerial".data) = ("ccu_get_serial".data) := by
  constructor <;>
    simp [to_internal_name, decamel, camelPass1, camelPass2, replaceDot, replaceDU,
      replaceBidcos, replaceRega]

/-- C3 (counterexample): the remote name `a...b` translates to `a__b`, whose
local identifier does contain two consecutive underscores — the single
final `.replace("__", "_")` pass does not fully collapse the triple
underscore produced by the consecutive dots. -/
theorem to_internal_name_dd_cex :
    to_internal_name ("a...b".data) = ("a__b".data) ∧
    hasDD (to_internal_name ("a...b".data)) = true := by
  constructor <;>
    simp [to_internal_name, decamel, camelPass1, camelPass2, replaceDot, replaceDU,
      replaceBidcos, replaceRega, hasDD]

/-- C3 (amended): the final step collapses doubled underscores in one
left-to-right non-overlapping pass, so for every remote method name whose
intermediate string (after dot replacement, decamelization and the two
lexical corrections) contains no three consecutive underscores, the
produced local identifier contains no two consecutive underscores. -/
theorem to_internal_name_no_dd :
    ∀ name : Str, hasTD (preCollapse name) = false →
      hasDD (to_internal_name name) = false := by
  intro name h
  exact replaceDU_no_dd (preCollapse name) h

/-- C3 (witness): the translation of `Interface.activateLinkParamset`
contains no doubled underscore. -/
theorem to_internal_name_no_dd_witness :
    hasDD (to_internal_name ("Interface.activateLinkParamset".data)) = false :=
  to_internal_name_no_dd ("Interface.activateLinkParamset".data)
    (by simp [preCollapse, decamel, camelPass1, camelPass2, replaceDot,
      replaceBidcos, replaceRega, hasTD])

/-- C4: catalog collision behavior — remote names are processed in
introspection-report order; when two distinct remote names translate to the
same local identifier, the catalog afterwards holds exactly the descriptor
of the first remote name translating to that identifier (an element of the
listing up to and including position `i`), the later one is dropped, and no
error is raised. -/
theorem init_methods_first_wins :
    ∀ (api : XMLAPI) (t : Transport) (names : List Str) (i j : Nat)
      (hi : i < names.length) (hj : j < names.length),
      t.listMethodsResult = .ok names → i < j →
      names.get ⟨i, hi⟩ ≠ names.get ⟨j, hj⟩ →
      to_internal_name (names.get ⟨i, hi⟩) = to_internal_name (names.get ⟨j, hj⟩) →
      (init_methods api t).2 = .ok () ∧
      ∃ m, (names.find? fun n =>
          to_internal_name n == to_internal_name (names.get ⟨j, hj⟩)) = some m ∧
        m ∈ names.take (i + 1) ∧
        (init_methods api t).1.methods.lookup (to_internal_name (names.get ⟨j, hj⟩))
          = some (mkMethod m) := by
  intro api t names i j hi hj hlist hij hne htr
  obtain ⟨m, hf, hmem⟩ := find?_mem_take
    (fun n => to_internal_name n == to_internal_name (names.get ⟨j, hj⟩)) names i hi
    (by show (to_internal_name (names.get ⟨i, hi⟩)
        == to_internal_name (names.get ⟨j, hj⟩)) = true
        rw [htr]; simp)
  refine ⟨by simp [init_methods, hlist], m, hf, hmem, ?_⟩
  have hcat : (init_methods api t).1.methods = buildMethods names := by
    simp [init_methods, hlist]
  rw [hcat, lookup_buildMethods, hf]
  rfl

/-- C4 (witness): `a.b` and `a_b` are distinct remote names that both
translate to `a_b`; after catalog initialization the catalog holds the
descriptor of `a.b`, the first of the two, and no error is raised. -/
theorem init_methods_first_wins_witness :
    (init_methods (XMLAPI.make ("ccu".data)) tCollide).2 = .ok () ∧
    ∃ m, ([("a.b".data), ("a_b".data)].find? fun n =>
        to_internal_name n == to_internal_name ("a_b".data)) = some m ∧
      m ∈ [("a.b".data), ("a_b".data)].take (0 + 1) ∧
      (init_methods (XMLAPI.make ("ccu".data)) tCollide).1.methods.lookup
        (to_internal_name ("a_b".data)) = some (mkMethod m) :=
  init_methods_first_wins (XMLAPI.make ("ccu".data)) tCollide
    [("a.b".data), ("a_b".data)] 0 1 (by decide) (by decide) rfl (by decide)
    (by decide)
    (by simp [to_internal_name, decamel, camelPass1, camelPass2, replaceDot,
      replaceDU, replaceBidcos, replaceRega])

/-- C5: error mapping of a resolved call — an `xmlrpclib.ProtocolError`
(transport-level fault) surfaces as a `PMConnectionError` whose message
embeds the configured (normalized) address, and a remote `Fault` response
surfaces as a `PMException` ("Server error calling ...", the spec's
`ProtocolError`) whose message embeds the requested local identifier. -/
theorem do_call_error_mapping :
    ∀ (api : XMLAPI) (t : Transport) (name : Str) (args : List XValue) (m : Method),
      api.methods.lookup name = some m →
      (∀ perr, t.callResult m.NAME args = .error (.xmlProtocolError perr) →
        do_call api t name args = .error (.pmConnectionError
          (("Unable to open \"".data) ++ api.address ++ ("\": ".data) ++ perr))) ∧
      (∀ fault, t.callResult m.NAME args = .error (.xmlFault fault) →
        do_call api t name args = .error (.pmException
          (("Server error calling \"".data) ++ name ++ ("\": ".data) ++ fault))) := by
  intro api t name args m hm
  constructor <;> intro d hd <;> simp [do_call, get_method, hm, hd]

/-- C5 (witness): with `ccu_get_serial` resolved and the transport raising
`ProtocolError("407")`, the call fails with the `PMConnectionError` whose
message quotes the normalized address `http://ccu:2001`. -/
theorem do_call_error_mapping_witness :
    do_call apiReady tProtoErr ("ccu_get_serial".data) []
      = .error (.pmConnectionError ("Unable to open \"http://ccu:2001\": 407".data)) :=
  (do_call_error_mapping apiReady tProtoErr ("ccu_get_serial".data) []
    (mkMethod ("CCU.getSerial".data)) rfl).1 ("407".data) rfl

/-- C6 (counterexample): a transport failure that is neither an
`xmlrpclib.ProtocolError` nor a `Fault` — here a low-level socket error —
is passed through a resolved call unchanged, not translated into the
client's own error classes. -/
theorem do_call_raw_passthrough_cex :
    do_call apiReady tRaw ("ccu_get_serial".data) [] = .error (.otherExc ("boom".data)) ∧
    isClientError (.otherExc ("boom".data)) = false :=
  ⟨rfl, rfl⟩

/-- C6 (amended): every failure of a resolved call whose transport faults
are limited to the two kinds `_do_call` catches (`xmlrpclib.ProtocolError`
and `Fault`) surfaces as one of the client's own error classes
(`PMException` — configuration, protocol and method-not-found errors — or
`PMConnectionError`); exceptions outside those two kinds propagate raw. -/
theorem do_call_taxonomy :
    ∀ (api : XMLAPI) (t : Transport) (name : Str) (args : List XValue) (e : PyErr),
      onlyCaughtKinds t →
      do_call api t name args = .error e →
      isClientError e = true := by
  intro api t name args e hok hcall
  unfold do_call at hcall
  cases hg : api.methods.lookup name with
  | none =>
    simp [get_method, hg] at hcall
    simp [← hcall, isClientError]
  | some m =>
    simp only [get_method, hg] at hcall
    cases hc : t.callResult m.NAME args with
    | ok v => rw [hc] at hcall; simp at hcall
    | error e' =>
      rcases hok m.NAME args e' hc with ⟨d, rfl⟩ | ⟨d, rfl⟩ <;>
        rw [hc] at hcall <;> simp at hcall <;> simp [← hcall, isClientError]

/-- C6 (witness): with the transport raising only caught kinds, the error
surfaced by the failing resolved call is one of the client's own classes. -/
theorem do_call_taxonomy_witness :
    isClientError (.pmConnectionError ("Unable to open \"http://ccu:2001\": 407".data)) = true :=
  do_call_taxonomy apiReady tProtoErr ("ccu_get_serial".data) []
    (.pmConnectionError ("Unable to open \"http://ccu:2001\": 407".data))
    (fun nm args e h => Or.inl ⟨("407".data), by injection h with h'; exact h'.symm⟩)
    rfl

/-- `_initialize_api` never touches `self._fail_exc`. -/
theorem initApi_fail_exc (api : XMLAPI) (t : Transport) :
    (initApi api t).1.fail_exc = api.fail_exc := by
  unfold initApi connect init_methods
  cases t.connectResult <;> cases t.listMethodsResult <;> simp

/-- On a not-yet-initialized client, `_initialize` behaves the same whether
or not a prior failure is still recorded: it starts by clearing it. -/
theorem doInit_restart (api : XMLAPI) (t : Transport) (h : api.isInit = false) :
    doInit api t = doInit { api with fail_exc := none } t := by
  unfold doInit
  simp [h]

/-- On a not-yet-initialized client, `_initialize` clears the recorded
failure and dispatches on the outcome of `_initialize_api`. -/
theorem doInit_not_init_eq (api : XMLAPI) (t : Transport) (h : api.isInit = false) :
    doInit api t
      = (match initApi { api with fail_exc := none } t with
         | (api2, Except.ok _) => ({ api2 with isInit := true }, Except.ok ())
         | (api2, Except.error e) =>
             ({ api2 with isInit := false, fail_exc := some e }, Except.error e)) := by
  unfold doInit
  rw [if_neg (by simp [h])]

/-- A successful `_initialize` run on a not-yet-initialized client leaves
`initialized` true and no recorded failure. -/
theorem doInit_ok_of_not_init (api : XMLAPI) (t : Transport) (h : api.isInit = false)
    (hok : (doInit api t).2 = .ok ()) :
    (doInit api t).1.isInit = true ∧ (doInit api t).1.fail_exc = none := by
  rw [doInit_not_init_eq api t h] at hok ⊢
  cases hI : initApi { api with fail_exc := none } t with
  | mk st r =>
    rw [hI] at hok
    cases r with
    | ok u =>
      have hf : st.fail_exc = none := by
        have hfe := initApi_fail_exc { api with fail_exc := none } t
        rw [hI] at hfe
        simpa using hfe
      simp [hf]
    | error e => simp at hok

/-- C7: failed-initialization state transition — when a step of
initialization (transport connect or catalog fetch) fails with `e`, the
failure is re-raised, `initialized` is false and `fail_exc` records `e`
afterwards; a later `_initialize` on that state re-runs initialization from
scratch (behaving exactly as if the recorded failure had already been
cleared), and when the new attempt succeeds the client is initialized with
the recorded failure cleared. -/
theorem doInit_failure_recovery :
    ∀ (api : XMLAPI) (t : Transport) (e : PyErr),
      api.isInit = false →
      (initApi { api with fail_exc := none } t).2 = .error e →
      (doInit api t).2 = .error e ∧
      (doInit api t).1.isInit = false ∧
      (doInit api t).1.fail_exc = some e ∧
      (∀ t' : Transport,
        doInit (doInit api t).1 t' = doInit { (doInit api t).1 with fail_exc := none } t' ∧
        ((doInit (doInit api t).1 t').2 = .ok () →
          (doInit (doInit api t).1 t').1.isInit = true ∧
          (doInit (doInit api t).1 t').1.fail_exc = none)) := by
  intro api t e hin hfail
  have hd : doInit api t
      = ({ (initApi { api with fail_exc := none } t).1 with
            isInit := false, fail_exc := some e }, .error e) := by
    rw [doInit_not_init_eq api t hin]
    cases hI : initApi { api with fail_exc := none } t with
    | mk st r =>
      rw [hI] at hfail
      cases r with
      | ok u => simp at hfail
      | error e' =>
        simp at hfail
        subst hfail
        rfl
  refine ⟨by rw [hd], by rw [hd], by rw [hd], ?_⟩
  intro t'
  have hin' : (doInit api t).1.isInit = false := by rw [hd]
  exact ⟨doInit_restart _ t' hin',
    fun hok => doInit_ok_of_not_init _ t' hin' hok⟩

/-- C7 (witness): a client whose transport cannot connect records the
failure, stays uninitialized, re-raises the error, and retries
initialization from scratch on the next attempt. -/
theorem doInit_failure_recovery_witness :
    (doInit (XMLAPI.make ("ccu".data)) tNoConnect).2
        = .error (.otherExc ("connection refused".data)) ∧
    (doInit (XMLAPI.make ("ccu".data)) tNoConnect).1.isInit = false ∧
    (doInit (XMLAPI.make ("ccu".data)) tNoConnect).1.fail_exc
        = some (.otherExc ("connection refused".data)) ∧
    (∀ t' : Transport,
      doInit (doInit (XMLAPI.make ("ccu".data)) tNoConnect).1 t'
        = doInit { (doInit (XMLAPI.make ("ccu".data)) tNoConnect).1 with
            fail_exc := none } t' ∧
      ((doInit (doInit (XMLAPI.make ("ccu".data)) tNoConnect).1 t').2 = .ok () →
        (doInit (doInit (XMLAPI.make ("ccu".data)) tNoConnect).1 t').1.isInit = true ∧
        (doInit (doInit (XMLAPI.make ("ccu".data)) tNoConnect).1 t').1.fail_exc = none)) :=
  doInit_failure_recovery (XMLAPI.make ("ccu".data)) tNoConnect
    (.otherExc ("connection refused".data)) rfl rfl

/-- C8: invoking a local identifier that is absent from the catalog fails
with the `PMException` naming that identifier ("Method ... is not a valid
method."), and the absence check happens only after the initialization
attempt: with a transport that cannot connect, even a mistyped name makes
the invocation fail with the connection error of the attempted
initialization, never with the method-not-found error. -/
theorem invoke_method_not_found :
    ∀ (api : XMLAPI) (t : Transport) (name : Str) (args : List XValue),
      ((doInit api t).2 = .ok () →
        (doInit api t).1.methods.lookup name = none →
        invoke api t name args =
          ((doInit api t).1,
           .error (.pmException (("Method \"".data) ++ name
             ++ ("\" is not a valid method.".data))))) ∧
      (∀ ce : PyErr, api.isInit = false → t.connectResult = .error ce →
        invoke api t name args = ((doInit api t).1, .error ce) ∧
        (doInit api t).1.isInit = false ∧ (doInit api t).1.fail_exc = some ce) := by
  intro api t name args
  constructor
  · intro hok hnone
    unfold invoke
    cases hI : doInit api t with
    | mk st r =>
      rw [hI] at hok hnone
      simp only [Prod.snd] at hok
      cases r with
      | error e => simp at hok
      | ok u =>
        simp only [Prod.fst] at hnone ⊢
        simp [do_call, get_method, hnone]
  · intro ce hin hce
    have h2 : (doInit api t).2 = .error ce := by
      unfold doInit initApi connect
      simp [hin, hce]
    have h3 : (doInit api t).1.isInit = false ∧ (doInit api t).1.fail_exc = some ce := by
      unfold doInit initApi connect
      simp [hin, hce]
    refine ⟨?_, h3.1, h3.2⟩
    unfold invoke
    cases hI : doInit api t with
    | mk st r =>
      rw [hI] at h2
      simp only [Prod.snd] at h2
      subst h2
      rfl

/-- C8 (witness): on a fresh client, the unknown identifier `no_such`
resolves to the method-not-found `PMException` once initialization has
succeeded, and with an unconnectable transport the same mistyped name
fails with the connection attempt's error instead. -/
theorem invoke_method_not_found_witness :
    (((doInit (XMLAPI.make ("ccu".data)) tListOne).2 = .ok () →
      (doInit (XMLAPI.make ("ccu".data)) tListOne).1.methods.lookup ("no_such".data) = none →
      invoke (XMLAPI.make ("ccu".data)) tListOne ("no_such".data) [] =
        ((doInit (XMLAPI.make ("ccu".data)) tListOne).1,
         .error (.pmException (("Method \"".data) ++ ("no_such".data)
           ++ ("\" is not a valid method.".data))))) ∧
     (∀ ce : PyErr, (XMLAPI.make ("ccu".data)).isInit = false →
        tNoConnect.connectResult = .error ce →
        invoke (XMLAPI.make ("ccu".data)) tNoConnect ("no_such".data) []
          = ((doInit (XMLAPI.make ("ccu".data)) tNoConnect).1, .error ce) ∧
        (doInit (XMLAPI.make ("ccu".data)) tNoConnect).1.isInit = false ∧
        (doInit (XMLAPI.make ("ccu".data)) tNoConnect).1.fail_exc = some ce)) ∧
    invoke (XMLAPI.make ("ccu".data)) tListOne ("no_such".data) [] =
      ((doInit (XMLAPI.make ("ccu".data)) tListOne).1,
       .error (.pmException ("Method \"no_such\" is not a valid method.".data))) :=
  ⟨⟨(invoke_method_not_found (XMLAPI.make ("ccu".data)) tListOne ("no_such".data) []).1,
    (invoke_method_not_found (XMLAPI.make ("ccu".data)) tNoConnect ("no_such".data) []).2⟩,
   (invoke_method_not_found (XMLAPI.make ("ccu".data)) tListOne ("no_such".data) []).1
     rfl
     (by simp [doInit, initApi, connect, init_methods, tListOne, XMLAPI.make,
       buildMethods, setdefault, mkMethod, List.lookup, to_internal_name, decamel,
       camelPass1, camelPass2, replaceDot, replaceDU, replaceBidcos, replaceRega])⟩

/-- C9: catalog initialization clears the existing catalog before querying
the remote listing — when the listing call fails, the client keeps an empty
catalog (descriptors from any earlier population are discarded), and through
`_initialize` the client ends uninitialized with the failure recorded and
re-raised. -/
theorem init_methods_failure_clears :
    ∀ (api : XMLAPI) (t : Transport) (e : PyErr),
      t.listMethodsResult = .error e →
      init_methods api t = ({ api with methods := [] }, .error e) ∧
      (api.isInit = false → t.connectResult = .ok () →
        (doInit api t).1.methods = [] ∧
        (doInit api t).1.isInit = false ∧
        (doInit api t).1.fail_exc = some e ∧
        (doInit api t).2 = .error e) := by
  intro api t e hl
  refine ⟨by simp [init_methods, hl], ?_⟩
  intro hin hc
  rw [doInit_not_init_eq api t hin]
  simp [initApi, connect, hc, init_methods, hl]

/-- C9 (witness): a client holding a stale descriptor that re-initializes
against a transport whose listing call fails ends with an empty catalog,
uninitialized, the failure recorded and re-raised. -/
theorem init_methods_failure_clears_witness :
    init_methods apiStale tBadListing
        = ({ apiStale with methods := [] }, .error (.xmlFault ("oops".data))) ∧
    (apiStale.isInit = false → tBadListing.connectResult = .ok () →
      (doInit apiStale tBadListing).1.methods = [] ∧
      (doInit apiStale tBadListing).1.isInit = false ∧
      (doInit apiStale tBadListing).1.fail_exc = some (.xmlFault ("oops".data)) ∧
      (doInit apiStale tBadListing).2 = .error (.xmlFault ("oops".data))) :=
  init_methods_failure_clears apiStale tBadListing (.xmlFault ("oops".data)) rfl

/-- C10: every descriptor the catalog holds records only the raw remote
name — its description and both argument lists are empty — and consequently
the `print_methods` listing renders every method with no argument names and
an empty description column. -/
theorem init_methods_descriptors :
    ∀ (api : XMLAPI) (t : Transport) (names : List Str),
      t.listMethodsResult = .ok names →
      (init_methods api t).2 = .ok () ∧
      (∀ k m, (init_methods api t).1.methods.lookup k = some m →
        m.NAME ∈ names ∧ m.INFO = [] ∧ m.ARGUMENTS = [] ∧ m.INT_ARGUMENTS = []) ∧
      (api.isInit = false → t.connectResult = .ok () →
        (print_methods_out api t).2 = .ok (
          line_format ("Method".data) ("Description".data) ++
          (((buildMethods names).mergeSort fun x y => strLe x.1 y.1).map
            (fun km => line_format (("API.".data) ++ km.1 ++ ("()".data)) [])).flatten)) := by
  intro api t names hl
  refine ⟨by simp [init_methods, hl], ?_, ?_⟩
  · intro k m hm
    have hcat : (init_methods api t).1.methods = buildMethods names := by
      simp [init_methods, hl]
    rw [hcat, lookup_buildMethods] at hm
    cases hf : names.find? (fun n => to_internal_name n == k) with
    | none => rw [hf] at hm; simp at hm
    | some nm =>
      rw [hf] at hm
      simp at hm
      refine ⟨?_, by simp [← hm, mkMethod], by simp [← hm, mkMethod],
        by simp [← hm, mkMethod]⟩
      have : m.NAME = nm := by simp [← hm, mkMethod]
      rw [this]
      exact List.mem_of_find?_eq_some hf
  · intro hin hc
    have hd2 : (doInit api t).2 = .ok () := by
      rw [doInit_not_init_eq api t hin]
      simp [initApi, connect, hc, init_methods, hl]
    have hdm : (doInit api t).1.methods = buildMethods names := by
      rw [doInit_not_init_eq api t hin]
      simp [initApi, connect, hc, init_methods, hl]
    unfold print_methods_out
    cases hI : doInit api t with
    | mk st r =>
      rw [hI] at hd2 hdm
      simp only [Prod.fst, Prod.snd] at hd2 hdm
      subst hd2
      simp only
      rw [hdm]
      congr 2
      congr 1
      apply List.map_congr_left
      intro km hkm
      obtain ⟨nm, hnm, hkme⟩ :=
        mem_buildMethods names km (List.mem_mergeSort.mp hkm)
      subst hkme
      simp [mkMethod, joinArgs, line_format]

/-- C10 (witness): a fresh client initialized against a transport listing
`CCU.getSerial` gets its catalog populated with the empty-fields descriptor
and renders the diagnostic listing with `()` and empty descriptions. -/
theorem init_methods_descriptors_witness :
    (init_methods (XMLAPI.make ("ccu".data)) tListOne).2 = .ok () ∧
    (∀ k m, (init_methods (XMLAPI.make ("ccu".data)) tListOne).1.methods.lookup k = some m →
      m.NAME ∈ [("CCU.getSerial".data)] ∧ m.INFO = [] ∧ m.ARGUMENTS = [] ∧
      m.INT_ARGUMENTS = []) ∧
    ((XMLAPI.make ("ccu".data)).isInit = false → tListOne.connectResult = .ok () →
      (print_methods_out (XMLAPI.make ("ccu".data)) tListOne).2 = .ok (
        line_format ("Method".data) ("Description".data) ++
        (((buildMethods [("CCU.getSerial".data)]).mergeSort fun x y => strLe x.1 y.1).map
          (fun km => line_format (("API.".data) ++ km.1 ++ ("()".data)) [])).flatten)) :=
  init_methods_descriptors (XMLAPI.make ("ccu".data)) tListOne [("CCU.getSerial".data)] rfl
